import Mathlib

/-!
Verification of the lead-generation pipeline (domain verification,
tech-stack fingerprinting, and sales-viability scoring).

The Python modules `domain_verification.py`, `enhanced_tech_detection.py`,
`sales_viability_filter.py` and the scoring block of `crawl_verified.py`
are shallowly embedded below.  Network and subprocess effects are
modelled by explicit oracle parameters; mutable state (the per-instance
HTTP cache) is passed explicitly; I/O traces are recorded as event
lists so that statements about "which requests are issued" are provable.
-/

set_option maxRecDepth 4000

/-! ### Basic string machinery (ASCII-faithful models of the Python string
operations used by the source: `.lower()`, `in`, `.startswith`,
`.replace`, `.split`, `int(...)`). -/

/-- Model of Python str.lower for ASCII input. -/
def charLower (c : Char) : Char :=
  if 'A' ≤ c && c ≤ 'Z' then Char.ofNat (c.toNat + 32) else c

/-- Model of Python str.lower (the source only lowercases ASCII names,
headers and HTML bodies). -/
def strLower (s : String) : String := String.mk (s.toList.map charLower)

/-- Boolean check that `pre` starts the list `l` (chars compared with ==). -/
def startsWithChars : List Char → List Char → Bool
  | [], _ => true
  | _ :: _, [] => false
  | a :: as, b :: bs => a == b && startsWithChars as bs

/-- Boolean substring search over char lists. -/
def hasSubChars (needle : List Char) : List Char → Bool
  | [] => startsWithChars needle []
  | b :: bs => startsWithChars needle (b :: bs) || hasSubChars needle bs

/-- Model of the Python substring test `needle in haystack`. -/
def strContains (haystack needle : String) : Bool :=
  hasSubChars needle.toList haystack.toList

/-- Model of Python `s.startswith(pre)`. -/
def strStarts (s pre : String) : Bool := startsWithChars pre.toList s.toList

/-- Model of Python single-character replace. -/
def replaceChar (o n : Char) (s : String) : String :=
  String.mk (s.toList.map (fun c => if c == o then n else c))

/-- Model of Python replace of each space by the empty string. -/
def removeSpaces (s : String) : String :=
  String.mk (s.toList.filter (fun c => !(c == ' ')))

/-- Model of Python `s.split()`: split on whitespace runs, dropping empties. -/
def splitWsAux : List Char → List Char → List String
  | [], acc => if acc.isEmpty then [] else [String.mk acc.reverse]
  | c :: cs, acc =>
    if c.isWhitespace then
      if acc.isEmpty then splitWsAux cs []
      else String.mk acc.reverse :: splitWsAux cs []
    else splitWsAux cs (c :: acc)

/-- Model of Python `s.split()` (whitespace split, no empty fields). -/
def splitWs (s : String) : List String := splitWsAux s.toList []

/-- Split a char list on a separator character (model of `s.split(sep)`
for a one-character separator; always returns at least one field). -/
def splitOnChar (sep : Char) : List Char → List (List Char)
  | [] => [[]]
  | x :: xs =>
    if x == sep then [] :: splitOnChar sep xs
    else
      match splitOnChar sep xs with
      | [] => [[x]]
      | h :: t => (x :: h) :: t

/-- Model of Python `int(s)` for plain digit strings (`none` when the
conversion raises `ValueError`). -/
def charsToNat? (cs : List Char) : Option Nat :=
  if cs.isEmpty || !(cs.all Char.isDigit) then none
  else some (cs.foldl (fun acc c => acc * 10 + (c.toNat - 48)) 0)

/-- Python truthiness of an optional string (`None` and `""` are falsy). -/
def pyTruthy : Option String → Bool
  | none => false
  | some s => !(s == "")

/-! ### Data model (the dict shapes produced by the Python source). -/

/-- Result dict of `TechStackDetector.detect_server_info`. -/
structure ServerInfo where
  server : Option String
  version : Option String
  outdated : Bool
  framework : Option String
  powered_by : Option String
  security_headers : List (String × String)
deriving Repr, DecidableEq

/-- One entry of the `vulnerable_plugins` list built by `detect_wordpress`. -/
structure VulnPlugin where
  name : String
  version : String
  vulnerabilities : Nat
deriving Repr, DecidableEq

/-- Result dict of `TechStackDetector.detect_wordpress`. -/
structure WordPressInfo where
  is_wordpress : Bool
  version : Option String
  plugins : List String
  vulnerable_plugins : List VulnPlugin
  themes : List String
  vulnerabilities : Nat
  outdated_core : Bool
deriving Repr, DecidableEq

/-- Result dict of `TechStackDetector.detect_other_cms`. -/
structure OtherCms where
  cms_type : Option String
  version : Option String
  outdated : Bool
deriving Repr, DecidableEq

/-- Result dict of `TechStackDetector.analyze_tech_stack`. -/
structure TechStack where
  server : ServerInfo
  wordpress : WordPressInfo
  other_cms : OtherCms
  scan_timestamp : String
deriving Repr, DecidableEq

/-- Result dict of `TechStackDetector.extract_sales_signals`. -/
structure SalesSignals where
  has_outdated_server : Bool
  has_outdated_cms : Bool
  has_vulnerable_plugins : Bool
  has_poor_security : Bool
  opportunity_score : Int
  pain_points : List String
deriving Repr, DecidableEq

/-- The (score, recommendation, reasons) triple produced by the scoring
block of `crawl_verified.run_crawl`. -/
structure ScoreResult where
  score : Int
  recommendation : String
  reasons : List String
deriving Repr, DecidableEq

/-! ### Viability scoring (`sales_viability_filter.py` and the scoring
block of `crawl_verified.run_crawl`, which is textually duplicated in
`verified_unlimited_crawl.main`). -/

/-- `SalesViabilityFilter.EXCLUDE_KEYWORDS` (verbatim, including the
duplicated "target" entry). -/
def EXCLUDE_KEYWORDS : List String :=
  ["verizon", "at&t", "tmobile", "t-mobile",
   "google", "amazon", "microsoft", "apple", "facebook", "meta",
   "dell", "hp", "lenovo", "cisco", "ibm",
   "fortune 500", "multinational", "nasdaq", "nyse",
   "bank", "bank of", "capital one", "chase", "wells fargo",
   "mcdonalds", "walmart", "target", "costco", "target",
   "federal", "government", "military", "defense",
   "tesla", "uber", "lyft", "airbnb"]

/-- First exclusion keyword contained in the lower-cased company name
(the Python `for keyword in EXCLUDE_KEYWORDS: if keyword in company_lower`
loop with `break`). -/
def firstExcludedKeyword (companyName : String) : Option String :=
  EXCLUDE_KEYWORDS.find? (fun k => strContains (strLower companyName) k)

/-- The recommendation thresholds shared by `crawl_verified.run_crawl`
(lines 190-195) and `SalesViabilityFilter._heuristic_score`
(lines 171-177): `score >= 70` CONTACT, `score >= 50` MAYBE, else EXCLUDE. -/
def recommendationOf (score : Int) : String :=
  if score ≥ 70 then "CONTACT" else if score ≥ 50 then "MAYBE" else "EXCLUDE"

/-- The pure script-based scoring block of `crawl_verified.run_crawl`
(lines 152-195): exclusion-keyword short-circuit, then 50 base plus the
five fixed tech increments, clamp with `min(score, 100)`, then the
threshold mapping. -/
def crawlScore (companyName : String) (tech : TechStack) : ScoreResult :=
  match firstExcludedKeyword companyName with
  | some kw =>
    { score := 0, recommendation := "EXCLUDE",
      reasons := ["Matches exclusion keyword: " ++ kw] }
  | none =>
    let s1 : Int := 50
    let s2 : Int := if tech.wordpress.is_wordpress then s1 + 20 else s1
    let r2 : List String :=
      if tech.wordpress.is_wordpress then ["WordPress detected"] else []
    let s3 : Int := if pyTruthy tech.server.server then s2 + 15 else s2
    let r3 : List String :=
      if pyTruthy tech.server.server then
        r2 ++ ["Server: " ++ tech.server.server.getD ""]
      else r2
    let vulnCount := tech.wordpress.vulnerable_plugins.length
    let s4 : Int := if 0 < vulnCount then s3 + 25 else s3
    let r4 : List String :=
      if 0 < vulnCount then r3 ++ [toString vulnCount ++ " vulnerable plugins"] else r3
    let s5 : Int := if tech.wordpress.outdated_core then s4 + 15 else s4
    let r5 : List String :=
      if tech.wordpress.outdated_core then r4 ++ ["Outdated WordPress"] else r4
    let secCount := tech.server.security_headers.length
    let s6 : Int := if secCount = 0 then s5 + 10 else s5
    let r6 : List String :=
      if secCount = 0 then r5 ++ ["Missing security headers"] else r5
    let finalScore := min s6 100
    { score := finalScore, recommendation := recommendationOf finalScore, reasons := r6 }

/-- A parsed LLM assessment, as read from the Gemini JSON reply by
`SalesViabilityFilter.assess_sales_fit` (after applying the `.get`
defaults).  `none` stands for every failure path of that external
collaborator: subprocess exception, timeout, non-zero exit, no JSON
braces in the reply, or `json.JSONDecodeError`. -/
structure LlmAssessment where
  score : Int
  recommendation : String
  reasons : List String
deriving Repr, DecidableEq

/-- `SalesViabilityFilter._heuristic_score` (lines 115-179): the fallback
heuristic used when the LLM path fails. -/
def heuristic_score (companyName location domain : String) (osint_findings : Int)
    (tech : TechStack) (signals : SalesSignals) : Int × String × List String :=
  let locLocal : Bool :=
    !(location == "") &&
      !(["online", "unknown"].contains (strLower location))
  let s1 : Int := if locLocal then 50 + 10 else 50 - 20
  let r1 : List String :=
    if locLocal then ["Local company: " ++ location] else ["No clear local presence"]
  let s2 : Int := if 0 < osint_findings then s1 + min 20 osint_findings else s1 - 15
  let r2 : List String :=
    if 0 < osint_findings then
      r1 ++ ["Good OSINT data: " ++ toString osint_findings ++ " findings"]
    else r1 ++ ["Minimal OSINT data found"]
  let wp := tech.wordpress
  let s3 : Int :=
    if wp.is_wordpress then
      (if !wp.vulnerable_plugins.isEmpty then s2 + 15 + 20 else s2 + 15) +
        (if wp.outdated_core then 15 else 0)
    else s2
  let r3 : List String :=
    if wp.is_wordpress then
      (r2 ++ ["Uses WordPress - common platform"]) ++
        (if !wp.vulnerable_plugins.isEmpty then
          [toString wp.vulnerable_plugins.length ++ " vulnerable plugins"]
         else []) ++
        (if wp.outdated_core then ["Outdated WordPress - needs attention"] else [])
    else r2
  let s4 : Int := if signals.has_poor_security then s3 + 10 else s3
  let r4 : List String :=
    if signals.has_poor_security then r3 ++ ["Poor security posture - opportunity"] else r3
  let s5 : Int := if signals.has_outdated_server then s4 + 5 else s4
  let r5 : List String :=
    if signals.has_outdated_server then r4 ++ ["Outdated server software"] else r4
  let s6 : Int := s5 + signals.opportunity_score
  (s6, recommendationOf s6, r5)

/-- `SalesViabilityFilter.assess_sales_fit` (lines 27-113): exclusion
keyword short-circuit, then the Gemini LLM path (modelled by the `llm`
oracle; `none` is any failure of that external collaborator), falling
back to `_heuristic_score`. -/
def assess_sales_fit (llm : Option LlmAssessment)
    (companyName location domain : String) (osint_findings : Int)
    (tech : TechStack) (signals : SalesSignals) : Int × String × List String :=
  match firstExcludedKeyword companyName with
  | some kw => (0, "EXCLUDE", ["Matches exclusion keyword: " ++ kw])
  | none =>
    match llm with
    | some a => (a.score, a.recommendation, a.reasons)
    | none => heuristic_score companyName location domain osint_findings tech signals

/-! ### Concrete fixtures used by witnesses and counterexamples. -/

/-- All-default `ServerInfo` (the dict initialised at the top of
`detect_server_info`). -/
def serverDefault : ServerInfo :=
  { server := none, version := none, outdated := false, framework := none,
    powered_by := none, security_headers := [] }

/-- All-default `WordPressInfo` (the dict initialised at the top of
`detect_wordpress`). -/
def wpDefault : WordPressInfo :=
  { is_wordpress := false, version := none, plugins := [], vulnerable_plugins := [],
    themes := [], vulnerabilities := 0, outdated_core := false }

/-- All-default `OtherCms` (the dict initialised at the top of
`detect_other_cms`). -/
def cmsDefault : OtherCms := { cms_type := none, version := none, outdated := false }

/-- A tech stack with no detected signals. -/
def emptyTech : TechStack :=
  { server := serverDefault, wordpress := wpDefault, other_cms := cmsDefault,
    scan_timestamp := "t" }

/-- A tech stack triggering all five positive scoring signals. -/
def fullTech : TechStack :=
  { server := { server := some "Apache/2.2.3", version := some "2.2", outdated := true,
                framework := none, powered_by := none, security_headers := [] },
    wordpress := { is_wordpress := true, version := some "4.9", plugins := ["p1"],
                   vulnerable_plugins := [{ name := "p1", version := "1.0",
                                            vulnerabilities := 2 }],
                   themes := [], vulnerabilities := 1, outdated_core := true },
    other_cms := cmsDefault, scan_timestamp := "t" }

/-- Sales signals with nothing set. -/
def emptySignals : SalesSignals :=
  { has_outdated_server := false, has_outdated_cms := false,
    has_vulnerable_plugins := false, has_poor_security := false,
    opportunity_score := 0, pain_points := [] }

example : firstExcludedKeyword "Walmart Supercenter" = some "walmart" := by decide

example : firstExcludedKeyword "Ace Plumbing" = none := by decide

example : (crawlScore "Ace Plumbing" fullTech).score = 100 := by decide

example : (crawlScore "Ace Plumbing" emptyTech).score = 60 := by decide

example :
    (heuristic_score "Ace Plumbing" "" "ace.com" 0 emptyTech emptySignals).1 = 15 := by
  decide

/-! ### Scoring theorems (claims C1, C3, C4, C6, C10). -/

/-- If no exclusion keyword occurs in the lower-cased name, the keyword
scan of the scorers comes up empty. -/
theorem firstExcludedKeyword_eq_none {name : String}
    (h : ∀ kw ∈ EXCLUDE_KEYWORDS, strContains (strLower name) kw = false) :
    firstExcludedKeyword name = none := by
  unfold firstExcludedKeyword
  exact List.find?_eq_none.mpr (fun x hx => by simp [h x hx])

/-- Claim C1: for every business whose lower-cased name contains no
exclusion keyword, the canonical deterministic scorer returns
score = min(100, 50 + 20 if WordPress + 15 if server header + 25 if
vulnerable-plugin count > 0 + 15 if outdated core + 10 if zero security
headers), appending one reason string per triggered rule; an input
triggering all five signals (raw 135) yields exactly 100 with
recommendation CONTACT. -/
theorem crawlScore_formula (name : String) (tech : TechStack)
    (h : ∀ kw ∈ EXCLUDE_KEYWORDS, strContains (strLower name) kw = false) :
    (crawlScore name tech).score =
      min 100 (50 + (if tech.wordpress.is_wordpress then 20 else 0)
        + (if pyTruthy tech.server.server then 15 else 0)
        + (if 0 < tech.wordpress.vulnerable_plugins.length then 25 else 0)
        + (if tech.wordpress.outdated_core then 15 else 0)
        + (if tech.server.security_headers.length = 0 then 10 else 0)) ∧
    (crawlScore name tech).reasons =
      (if tech.wordpress.is_wordpress then ["WordPress detected"] else []) ++
      (if pyTruthy tech.server.server then
        ["Server: " ++ tech.server.server.getD ""] else []) ++
      (if 0 < tech.wordpress.vulnerable_plugins.length then
        [toString tech.wordpress.vulnerable_plugins.length ++ " vulnerable plugins"]
       else []) ++
      (if tech.wordpress.outdated_core then ["Outdated WordPress"] else []) ++
      (if tech.server.security_headers.length = 0 then
        ["Missing security headers"] else []) ∧
    (tech.wordpress.is_wordpress = true → pyTruthy tech.server.server = true →
      0 < tech.wordpress.vulnerable_plugins.length →
      tech.wordpress.outdated_core = true →
      tech.server.security_headers.length = 0 →
      (crawlScore name tech).score = 100 ∧
        (crawlScore name tech).recommendation = "CONTACT") := by
  have hf := firstExcludedKeyword_eq_none h
  by_cases h1 : tech.wordpress.is_wordpress = true <;>
  by_cases h2 : pyTruthy tech.server.server = true <;>
  by_cases h3 : 0 < tech.wordpress.vulnerable_plugins.length <;>
  by_cases h4 : tech.wordpress.outdated_core = true <;>
  by_cases h5 : tech.server.security_headers.length = 0 <;>
    simp_all [crawlScore, recommendationOf]

/-- Witness for C1: a full-signal tech stack scores exactly 100 with
recommendation CONTACT. -/
theorem crawlScore_formula_witness :
    (crawlScore "Ace Plumbing" fullTech).score = 100 ∧
    (crawlScore "Ace Plumbing" fullTech).recommendation = "CONTACT" :=
  (crawlScore_formula "Ace Plumbing" fullTech (by decide)).2.2
    (by decide) (by decide) (by decide) (by decide) (by decide)

/-- Claim C4: any business name that case-insensitively contains an
exclusion keyword gets score exactly 0, recommendation EXCLUDE, and a
single reason naming the matched keyword, regardless of tech stack and
signals, in both the crawl scoring block and
`SalesViabilityFilter.assess_sales_fit`. -/
theorem exclusion_short_circuit (name location domain : String)
    (llm : Option LlmAssessment) (osint : Int) (tech : TechStack)
    (signals : SalesSignals)
    (h : ∃ kw ∈ EXCLUDE_KEYWORDS, strContains (strLower name) kw = true) :
    ∃ k, k ∈ EXCLUDE_KEYWORDS ∧ strContains (strLower name) k = true ∧
      crawlScore name tech =
        { score := 0, recommendation := "EXCLUDE",
          reasons := ["Matches exclusion keyword: " ++ k] } ∧
      assess_sales_fit llm name location domain osint tech signals =
        (0, "EXCLUDE", ["Matches exclusion keyword: " ++ k]) := by
  obtain ⟨kw, hkw, hc⟩ := h
  have hs : (firstExcludedKeyword name).isSome := by
    unfold firstExcludedKeyword
    exact List.find?_isSome.mpr ⟨kw, hkw, hc⟩
  obtain ⟨k, hk⟩ := Option.isSome_iff_exists.mp hs
  have hk' : EXCLUDE_KEYWORDS.find? (fun kk => strContains (strLower name) kk)
      = some k := hk
  refine ⟨k, List.mem_of_find?_eq_some hk', List.find?_some hk', ?_, ?_⟩ <;>
    simp [crawlScore, assess_sales_fit, hk]

/-- Witness for C4: the name Walmart Supercenter is excluded with score 0
even on a full-signal tech stack. -/
theorem exclusion_short_circuit_witness :
    (crawlScore "Walmart Supercenter" fullTech).score = 0 ∧
    (crawlScore "Walmart Supercenter" fullTech).recommendation = "EXCLUDE" := by
  obtain ⟨k, _, _, h3, _⟩ :=
    exclusion_short_circuit "Walmart Supercenter" "loc" "d" none 0 fullTech
      emptySignals ⟨"walmart", by decide, by decide⟩
  rw [h3]
  exact ⟨rfl, rfl⟩

/-- Claim C6: for every score, score >= 70 yields CONTACT, 50 <= score < 70
yields MAYBE, score < 50 yields EXCLUDE; in particular 70 yields CONTACT,
69 yields MAYBE and 49 yields EXCLUDE. -/
theorem recommendation_thresholds (s : Int) :
    (70 ≤ s → recommendationOf s = "CONTACT") ∧
    (50 ≤ s ∧ s < 70 → recommendationOf s = "MAYBE") ∧
    (s < 50 → recommendationOf s = "EXCLUDE") ∧
    recommendationOf 70 = "CONTACT" ∧ recommendationOf 69 = "MAYBE" ∧
    recommendationOf 49 = "EXCLUDE" := by
  refine ⟨fun h => ?_, fun h => ?_, fun h => ?_, by decide, by decide, by decide⟩
  · simp [recommendationOf, h]
  · have h1 : ¬ (s ≥ 70) := by omega
    simp [recommendationOf, h1, h.1]
  · have h1 : ¬ (s ≥ 70) := by omega
    have h2 : ¬ (s ≥ 50) := by omega
    simp [recommendationOf, h1, h2]

/-- Witness for C6: the boundary values 70, 69 and 49. -/
theorem recommendation_thresholds_witness :
    recommendationOf 70 = "CONTACT" ∧ recommendationOf 69 = "MAYBE" ∧
    recommendationOf 49 = "EXCLUDE" :=
  ⟨(recommendation_thresholds 70).1 (by decide),
   (recommendation_thresholds 69).2.1 ⟨by decide, by decide⟩,
   (recommendation_thresholds 49).2.2.1 (by decide)⟩

/-- Claim C10: on the non-excluded path the canonical scorer never goes
below the base 50, so its recommendation is CONTACT or MAYBE and the
EXCLUDE branch of the threshold mapping is unreachable there. -/
theorem crawlScore_nonexcluded_floor (name : String) (tech : TechStack)
    (h : ∀ kw ∈ EXCLUDE_KEYWORDS, strContains (strLower name) kw = false) :
    50 ≤ (crawlScore name tech).score ∧
    ((crawlScore name tech).recommendation = "CONTACT" ∨
      (crawlScore name tech).recommendation = "MAYBE") := by
  have hf := firstExcludedKeyword_eq_none h
  by_cases h1 : tech.wordpress.is_wordpress = true <;>
  by_cases h2 : pyTruthy tech.server.server = true <;>
  by_cases h3 : 0 < tech.wordpress.vulnerable_plugins.length <;>
  by_cases h4 : tech.wordpress.outdated_core = true <;>
  by_cases h5 : tech.server.security_headers.length = 0 <;>
    simp_all [crawlScore, recommendationOf]

/-- Witness for C10: a non-excluded business with an empty tech stack
scores 60 (MAYBE), at least the base 50. -/
theorem crawlScore_nonexcluded_floor_witness :
    50 ≤ (crawlScore "Ace Plumbing" emptyTech).score ∧
    ((crawlScore "Ace Plumbing" emptyTech).recommendation = "CONTACT" ∨
      (crawlScore "Ace Plumbing" emptyTech).recommendation = "MAYBE") :=
  crawlScore_nonexcluded_floor "Ace Plumbing" emptyTech (by decide)

/-- Counterexample for C3: on identical inputs the LLM-failure fallback
`_heuristic_score` (score 15, EXCLUDE) disagrees with the canonical
deterministic scorer of the crawl (score 60, MAYBE): the fallback is a
different heuristic, not the section 4.5 algorithm. -/
theorem heuristic_vs_canonical_cex :
    assess_sales_fit none "Ace Plumbing" "" "ace.com" 0 emptyTech emptySignals =
      heuristic_score "Ace Plumbing" "" "ace.com" 0 emptyTech emptySignals ∧
    (heuristic_score "Ace Plumbing" "" "ace.com" 0 emptyTech emptySignals).1 = 15 ∧
    (crawlScore "Ace Plumbing" emptyTech).score = 60 ∧
    (heuristic_score "Ace Plumbing" "" "ace.com" 0 emptyTech emptySignals).1 ≠
      (crawlScore "Ace Plumbing" emptyTech).score ∧
    (heuristic_score "Ace Plumbing" "" "ace.com" 0 emptyTech emptySignals).2.1 ≠
      (crawlScore "Ace Plumbing" emptyTech).recommendation := by
  decide

/-- Claim C3 (amended): when the LLM path fails and the name is not
excluded, `assess_sales_fit` falls back to `_heuristic_score`, whose
score is 50 + (10 if local, else -20) + (min(20, findings) if findings>0,
else -15) + (15 + 20 if vulnerable plugins + 15 if outdated core, when
WordPress) + (10 if poor security) + (5 if outdated server) +
opportunity_score, unclamped, with the shared threshold mapping — a
different heuristic from the canonical crawl scorer. -/
theorem assess_fallback_heuristic (name location domain : String) (osint : Int)
    (tech : TechStack) (signals : SalesSignals)
    (h : ∀ kw ∈ EXCLUDE_KEYWORDS, strContains (strLower name) kw = false) :
    assess_sales_fit none name location domain osint tech signals =
      heuristic_score name location domain osint tech signals ∧
    (heuristic_score name location domain osint tech signals).1 =
      50 + (if (!(location == "") &&
              !(["online", "unknown"].contains (strLower location))) then 10 else -20)
        + (if 0 < osint then min 20 osint else -15)
        + (if tech.wordpress.is_wordpress then
            15 + (if !tech.wordpress.vulnerable_plugins.isEmpty then 20 else 0)
              + (if tech.wordpress.outdated_core then 15 else 0)
          else 0)
        + (if signals.has_poor_security then 10 else 0)
        + (if signals.has_outdated_server then 5 else 0)
        + signals.opportunity_score ∧
    (heuristic_score name location domain osint tech signals).2.1 =
      recommendationOf (heuristic_score name location domain osint tech signals).1 := by
  have hf := firstExcludedKeyword_eq_none h
  refine ⟨by simp [assess_sales_fit, hf], ?_, rfl⟩
  simp only [heuristic_score]
  split_ifs <;> omega

/-- Witness for C3 (amended): a concrete non-excluded input where the
fallback is exercised. -/
theorem assess_fallback_heuristic_witness :
    assess_sales_fit none "Ace Plumbing" "x" "d.com" 0 emptyTech emptySignals =
      heuristic_score "Ace Plumbing" "x" "d.com" 0 emptyTech emptySignals :=
  (assess_fallback_heuristic "Ace Plumbing" "x" "d.com" 0 emptyTech emptySignals
    (by decide)).1

/-! ### Domain verification (`domain_verification.py`). -/

/-- Simplified parse of a URL that (by construction of the caller) begins
with `http://`, `https://` or `//`: the netloc is everything after the
scheme marker up to the first `/`, `?` or `#`; the path is the rest.
This mirrors what `urllib.parse.urlparse` yields for such inputs. -/
def urlNetlocPath (s : String) : String × String :=
  let rest : List Char :=
    if strStarts s "https://" then s.toList.drop 8
    else if strStarts s "http://" then s.toList.drop 7
    else s.toList.drop 2
  let isDelim : Char → Bool := fun c => c == '/' || c == '?' || c == '#'
  (String.mk (rest.takeWhile (fun c => !(isDelim c))),
   String.mk (rest.dropWhile (fun c => !(isDelim c))))

/-- `DomainVerifier.get_domain_from_url` (lines 22-35): prepend `http://`
when no scheme marker is present, parse, and return `netloc or path`;
`none` models the Python `None` returned for empty input (the bare
`except` branch is unreachable for string input). -/
def get_domain_from_url (url : String) : Option String :=
  if url == "" then none
  else
    let url2 :=
      if strStarts url "http://" || strStarts url "https://" || strStarts url "//"
      then url else "http://" ++ url
    let p := urlNetlocPath url2
    some (if !(p.1 == "") then p.1 else p.2)

/-- The `verified`/`dns`/`http` result dict of `DomainVerifier.verify_domain`. -/
structure VerificationResult where
  verified : Bool
  domain : String
  dns_valid : Bool
  dns_ip : Option String
  http_responds : Bool
  http_status : Option Nat
  server : Option String
  error : Option String
deriving Repr, DecidableEq

/-- The HTTP-check step of `verify_domain` (lines 156-166): only here can
`verified` become true. `http` abstracts `domain_responds_to_http`,
returning the (success, status, server-or-error) tuple. -/
def verifyHttpStep (http : String → Bool × Option Nat × String)
    (require_http : Bool) (r : VerificationResult) (clean : String) :
    VerificationResult :=
  if require_http then
    let t := http clean
    if t.1 then
      { r with http_responds := true, http_status := t.2.1,
               server := some t.2.2, verified := true }
    else { r with http_responds := false, error := some t.2.2 }
  else r

/-- The DNS step of `verify_domain` (lines 146-153): on failure it stops
and records the error; on success it records the IP and proceeds to the
HTTP step. `dns` abstracts `domain_has_dns`. -/
def verifyDnsStep (dns : String → Bool × String)
    (http : String → Bool × Option Nat × String)
    (require_dns require_http : Bool) (r : VerificationResult)
    (clean : String) : VerificationResult :=
  if require_dns then
    let d := dns clean
    if d.1 then
      verifyHttpStep http require_http
        { r with dns_valid := true, dns_ip := some d.2 } clean
    else { r with error := some d.2 }
  else verifyHttpStep http require_http r clean

/-- `DomainVerifier.verify_domain` (lines 101-168), with DNS resolution
and the HTTP probe abstracted as oracles. -/
def verify_domain (dns : String → Bool × String)
    (http : String → Bool × Option Nat × String)
    (domain : String) (require_dns require_http : Bool) : VerificationResult :=
  let base : VerificationResult :=
    { verified := false, domain := domain, dns_valid := false, dns_ip := none,
      http_responds := false, http_status := none, server := none, error := none }
  if domain == "" then { base with error := some "Empty domain" }
  else
    match get_domain_from_url domain with
    | none => { base with error := some "Invalid domain format" }
    | some clean =>
      if clean == "" then { base with error := some "Invalid domain format" }
      else
        verifyDnsStep dns http require_dns require_http
          { base with domain := clean } clean

example : get_domain_from_url "example.com" = some "example.com" := by decide

example : get_domain_from_url "https://a.com/x?q" = some "a.com" := by decide

/-- A DNS oracle that always resolves. -/
def dnsOkStub : String → Bool × String := fun _ => (true, "1.2.3.4")

/-- An HTTP oracle that always responds 200 with an nginx Server header. -/
def httpOkStub : String → Bool × Option Nat × String := fun _ => (true, some 200, "nginx")

/-- Counterexample for C2: with `require_dns=True, require_http=False` and
a resolving domain, every required check passes (dns_valid is true) yet
`verified` remains false — `verified` is only ever set inside the
`require_http` branch. -/
theorem verify_domain_flags_cex :
    (verify_domain dnsOkStub httpOkStub "example.com" true false).dns_valid
      = true ∧
    (verify_domain dnsOkStub httpOkStub "example.com" true false).verified
      = false ∧
    (verify_domain dnsOkStub httpOkStub "example.com" true false).error
      = none := by
  decide

/-- Claim C2 (amended): `verified` becomes true exactly when
`require_http` is true, the HTTP check passes, and (when required) the
DNS check passes; on the first failing required check processing stops
with `error` set and no later check recorded; under the default flags
`verified` holds iff `dns_valid` and `http_responds` both hold. -/
theorem verify_domain_verified_iff (dns : String → Bool × String)
    (http : String → Bool × Option Nat × String) (domain c : String)
    (rd rh : Bool) (hne : domain ≠ "")
    (hclean : get_domain_from_url domain = some c) (hc : c ≠ "") :
    ((verify_domain dns http domain rd rh).verified = true ↔
      (rh = true ∧ (http c).1 = true ∧ (rd = true → (dns c).1 = true))) ∧
    (rd = true → (dns c).1 = false →
      verify_domain dns http domain rd rh =
        { verified := false, domain := c, dns_valid := false, dns_ip := none,
          http_responds := false, http_status := none, server := none,
          error := some (dns c).2 }) ∧
    ((rd = true → (dns c).1 = true) → rh = true → (http c).1 = false →
      (verify_domain dns http domain rd rh).error = some (http c).2.2 ∧
      (verify_domain dns http domain rd rh).verified = false ∧
      (verify_domain dns http domain rd rh).http_status = none) ∧
    (rd = true → rh = true →
      ((verify_domain dns http domain rd rh).verified = true ↔
        ((verify_domain dns http domain rd rh).dns_valid = true ∧
          (verify_domain dns http domain rd rh).http_responds = true))) := by
  have hne' : (domain == "") = false := by
    simp [hne]
  have hc' : (c == "") = false := by
    simp [hc]
  cases rd <;> cases rh <;>
    cases hdns : (dns c).1 <;> cases hhttp : (http c).1 <;>
      simp_all [verify_domain, verifyDnsStep, verifyHttpStep]

/-- Witness for C2 (amended): under default flags and all-passing oracles
the result is verified. -/
theorem verify_domain_verified_iff_witness :
    (verify_domain dnsOkStub httpOkStub "example.com" true true).verified
      = true :=
  (verify_domain_verified_iff dnsOkStub httpOkStub "example.com" "example.com"
    true true (by decide) (by decide) (by decide)).1.mpr
    ⟨rfl, rfl, fun _ => rfl⟩

/-! ### The HTTP probe `DomainVerifier.domain_responds_to_http`
(lines 53-99), with the network modelled as an oracle mapping
(url, attempt index) to an outcome, and the issued requests and
`time.sleep(0.5)` calls recorded as an event trace. -/

/-- Outcome of one `requests.head` call: success (status code and
optional `Server` header), `requests.exceptions.Timeout`,
`requests.exceptions.ConnectionError`, or any other exception. -/
inductive HttpOutcome where
  | success : Nat → Option String → HttpOutcome
  | timeout : HttpOutcome
  | connError : HttpOutcome
  | otherError : HttpOutcome
deriving Repr, DecidableEq

/-- True exactly for a successful outcome. -/
def HttpOutcome.isSuccess : HttpOutcome → Bool
  | .success _ _ => true
  | _ => false

/-- Observable side effects of the probe: an issued HEAD request
(url, attempt number) or a `time.sleep(0.5)`. -/
inductive Event where
  | request : String → Nat → Event
  | sleep : Event
deriving Repr, DecidableEq

/-- The inner `for attempt in range(self.retries)` loop of
`domain_responds_to_http` for one URL, over an explicit list of attempt
numbers.  On success it returns immediately; on timeout at the last
attempt it falls through (the Python `continue` ends the loop), on
timeout earlier it sleeps 0.5s and retries; on connection error or any
other exception the Python `continue` proceeds to the next attempt of
the SAME url. -/
def tryAttemptList (net : String → Nat → HttpOutcome) (u : String)
    (retries : Nat) : List Nat → Option (Nat × String) × List Event
  | [] => (none, [])
  | attempt :: rest =>
    match net u attempt with
    | .success status server =>
      (some (status, server.getD "Unknown"), [.request u attempt])
    | .timeout =>
      if attempt = retries - 1 then
        let r := tryAttemptList net u retries rest
        (r.1, .request u attempt :: r.2)
      else
        let r := tryAttemptList net u retries rest
        (r.1, .request u attempt :: .sleep :: r.2)
    | .connError =>
      let r := tryAttemptList net u retries rest
      (r.1, .request u attempt :: r.2)
    | .otherError =>
      let r := tryAttemptList net u retries rest
      (r.1, .request u attempt :: r.2)

/-- The outer `for url in urls_to_try` loop of `domain_responds_to_http`. -/
def tryUrls (net : String → Nat → HttpOutcome) (retries : Nat) :
    List String → Option (Nat × String) × List Event
  | [] => (none, [])
  | u :: rest =>
    let r := tryAttemptList net u retries (List.range retries)
    match r.1 with
    | some v => (some v, r.2)
    | none =>
      let r2 := tryUrls net retries rest
      (r2.1, r.2 ++ r2.2)

/-- `DomainVerifier.domain_responds_to_http` (lines 53-99): empty-domain
guard, cache lookup under key `"http_check:" + domain`, then the
https-then-http retry loops; both the success tuple and the exhaustion
tuple are written back to the cache.  Returns (result tuple, updated
cache, event trace). -/
def domain_responds_to_http (net : String → Nat → HttpOutcome)
    (retries : Nat) (cache : List (String × (Bool × Option Nat × String)))
    (domain : String) :
    (Bool × Option Nat × String) ×
      List (String × (Bool × Option Nat × String)) × List Event :=
  if domain == "" then ((false, none, "Empty domain"), cache, [])
  else
    let key := "http_check:" ++ domain
    match cache.lookup key with
    | some r => (r, cache, [])
    | none =>
      let t := tryUrls net retries ["https://" ++ domain, "http://" ++ domain]
      match t.1 with
      | some (status, server) =>
        ((true, some status, server), (key, (true, some status, server)) :: cache,
         t.2)
      | none =>
        ((false, none, "No HTTP response"),
         (key, (false, none, "No HTTP response")) :: cache, t.2)

/-- A network oracle whose every request raises a connection error. -/
def netConnErr : String → Nat → HttpOutcome := fun _ _ => .connError

/-- A network oracle whose every request times out. -/
def netTimeoutAll : String → Nat → HttpOutcome := fun _ _ => .timeout

example :
    (domain_responds_to_http netConnErr 2 [] "d").1 =
      (false, none, "No HTTP response") := by decide

example :
    (domain_responds_to_http netConnErr 2 [] "d").2.2 =
      [Event.request "https://d" 0, Event.request "https://d" 1,
       Event.request "http://d" 0, Event.request "http://d" 1] := by decide

example :
    (domain_responds_to_http netTimeoutAll 2 [] "d").2.2 =
      [Event.request "https://d" 0, Event.sleep, Event.request "https://d" 1,
       Event.request "http://d" 0, Event.sleep, Event.request "http://d" 1] := by
  decide

/-- If every attempt in the list fails, the per-URL loop produces no
result. -/
theorem tryAttemptList_none_of_fail (net : String → Nat → HttpOutcome)
    (u : String) (retries : Nat) (l : List Nat)
    (h : ∀ a ∈ l, (net u a).isSuccess = false) :
    (tryAttemptList net u retries l).1 = none := by
  induction l with
  | nil => rfl
  | cons a rest ih =>
    have ha := h a (List.mem_cons_self a rest)
    have hr : ∀ b ∈ rest, (net u b).isSuccess = false :=
      fun b hb => h b (List.mem_cons_of_mem a hb)
    cases hh : net u a with
    | success s v => simp [HttpOutcome.isSuccess, hh] at ha
    | timeout =>
      simp only [tryAttemptList, hh]
      split <;> simp [ih hr]
    | connError => simp [tryAttemptList, hh, ih hr]
    | otherError => simp [tryAttemptList, hh, ih hr]

/-- If every attempt of every URL fails, the whole probe loop produces no
result. -/
theorem tryUrls_none_of_fail (net : String → Nat → HttpOutcome)
    (retries : Nat) (us : List String)
    (h : ∀ u ∈ us, ∀ a ∈ List.range retries, (net u a).isSuccess = false) :
    (tryUrls net retries us).1 = none := by
  induction us with
  | nil => rfl
  | cons u rest ih =>
    have h1 : (tryAttemptList net u retries (List.range retries)).1 = none :=
      tryAttemptList_none_of_fail net u retries _
        (fun a ha => h u (List.mem_cons_self u rest) a ha)
    simp [tryUrls, h1, ih (fun v hv => h v (List.mem_cons_of_mem u hv))]

/-- The trace of the URL loop starts with the trace of the first URL. -/
theorem tryUrls_trace_head (net : String → Nat → HttpOutcome)
    (retries : Nat) (u : String) (rest : List String) :
    ∃ t, (tryUrls net retries (u :: rest)).2 =
      (tryAttemptList net u retries (List.range retries)).2 ++ t := by
  cases ht : (tryAttemptList net u retries (List.range retries)).1 with
  | some v => exact ⟨[], by simp [tryUrls, ht]⟩
  | none => exact ⟨(tryUrls net retries rest).2, by simp [tryUrls, ht]⟩

/-- For a fresh cache and non-empty domain, the probe trace is the trace
of the two retry loops. -/
theorem domain_responds_trace (net : String → Nat → HttpOutcome)
    (retries : Nat) (d : String) (hd : d ≠ "") :
    (domain_responds_to_http net retries [] d).2.2 =
      (tryUrls net retries ["https://" ++ d, "http://" ++ d]).2 := by
  have hd' : (d == "") = false := by simp [hd]
  cases ht : (tryUrls net retries ["https://" ++ d, "http://" ++ d]).1 with
  | some v =>
    obtain ⟨s, sv⟩ := v
    simp [domain_responds_to_http, hd', ht]
  | none => simp [domain_responds_to_http, hd', ht]

/-- Counterexample for C5: with a network raising `ConnectionError` on
every request and the default 2 retries, the probe issues a SECOND
request to `https://d` right after the first connection error (the
Python `continue` re-enters the attempt loop of the same URL), rather
than moving immediately to `http://d` as the claim states. -/
theorem http_conn_error_cex :
    (domain_responds_to_http netConnErr 2 [] "d").2.2 =
      [Event.request "https://d" 0, Event.request "https://d" 1,
       Event.request "http://d" 0, Event.request "http://d" 1] ∧
    (domain_responds_to_http netConnErr 2 [] "d").2.2[1]? ≠
      some (Event.request "http://d" 0) := by
  decide

/-- Claim C5 (amended): with the default 2 retries and a fresh cache, the
probe tries `https://domain` then `http://domain`; the first success
wins, recording the status and the Server header (Unknown when absent);
on timeout on a non-final attempt it sleeps 0.5s and retries the same
URL; on connection error it immediately retries the SAME URL (moving to
the next URL only after all retries); exhausting all attempts on all
schemes returns exactly (False, None, No HTTP response). -/
theorem http_retry_behavior (net : String → Nat → HttpOutcome) (d : String)
    (hd : d ≠ "") :
    (∀ s sv, net ("https://" ++ d) 0 = HttpOutcome.success s sv →
      (domain_responds_to_http net 2 [] d).1 =
        (true, some s, sv.getD "Unknown") ∧
      (domain_responds_to_http net 2 [] d).2.2 =
        [Event.request ("https://" ++ d) 0]) ∧
    ((∀ u ∈ ["https://" ++ d, "http://" ++ d], ∀ a, a < 2 →
        (net u a).isSuccess = false) →
      (domain_responds_to_http net 2 [] d).1 =
        (false, none, "No HTTP response")) ∧
    (net ("https://" ++ d) 0 = HttpOutcome.timeout →
      ∃ t, (domain_responds_to_http net 2 [] d).2.2 =
        Event.request ("https://" ++ d) 0 :: Event.sleep ::
          Event.request ("https://" ++ d) 1 :: t) ∧
    (net ("https://" ++ d) 0 = HttpOutcome.connError →
      ∃ t, (domain_responds_to_http net 2 [] d).2.2 =
        Event.request ("https://" ++ d) 0 ::
          Event.request ("https://" ++ d) 1 :: t) := by
  have hd' : (d == "") = false := by simp [hd]
  have hr2 : List.range 2 = [0, 1] := rfl
  refine ⟨?_, ?_, ?_, ?_⟩
  · intro s sv h0
    constructor <;>
      simp [domain_responds_to_http, tryUrls, tryAttemptList, hd', hr2, h0]
  · intro hall
    have hn : (tryUrls net 2 ["https://" ++ d, "http://" ++ d]).1 = none :=
      tryUrls_none_of_fail net 2 _
        (fun u hu a ha => hall u hu a (List.mem_range.mp ha))
    simp [domain_responds_to_http, hd', hn]
  · intro h0
    have htal : (tryAttemptList net ("https://" ++ d) 2 [0, 1]).2 =
        [Event.request ("https://" ++ d) 0, Event.sleep,
         Event.request ("https://" ++ d) 1] := by
      cases h1 : net ("https://" ++ d) 1 <;> simp [tryAttemptList, h0, h1]
    obtain ⟨t, htp⟩ :=
      tryUrls_trace_head net 2 ("https://" ++ d) ["http://" ++ d]
    refine ⟨t, ?_⟩
    rw [domain_responds_trace net 2 d hd, htp, hr2, htal]
    rfl
  · intro h0
    have htal : (tryAttemptList net ("https://" ++ d) 2 [0, 1]).2 =
        [Event.request ("https://" ++ d) 0,
         Event.request ("https://" ++ d) 1] := by
      cases h1 : net ("https://" ++ d) 1 <;> simp [tryAttemptList, h0, h1]
    obtain ⟨t, htp⟩ :=
      tryUrls_trace_head net 2 ("https://" ++ d) ["http://" ++ d]
    refine ⟨t, ?_⟩
    rw [domain_responds_trace net 2 d hd, htp, hr2, htal]
    rfl

/-- Witness for C5 (amended): an all-timeout network exhausts every
attempt and yields the exact failure tuple. -/
theorem http_retry_behavior_witness :
    (domain_responds_to_http netTimeoutAll 2 [] "ex.com").1 =
      (false, none, "No HTTP response") :=
  (http_retry_behavior netTimeoutAll "ex.com" (by decide)).2.1
    (by intro u hu a ha; rfl)

/-- Claim C7: within one verifier instance, a second call to the probe
for the same (non-empty) domain issues no request at all — even against
a completely different network — because it is answered from the cache
under key http_check:domain and returns the identical tuple; the cache
is left unchanged. -/
theorem http_cache_hit (net1 net2 : String → Nat → HttpOutcome)
    (retries : Nat) (cache0 : List (String × (Bool × Option Nat × String)))
    (d : String) (hd : d ≠ "") :
    (domain_responds_to_http net2 retries
        (domain_responds_to_http net1 retries cache0 d).2.1 d).1 =
      (domain_responds_to_http net1 retries cache0 d).1 ∧
    (domain_responds_to_http net2 retries
        (domain_responds_to_http net1 retries cache0 d).2.1 d).2.2 = [] ∧
    (domain_responds_to_http net1 retries cache0 d).2.1.lookup
        ("http_check:" ++ d) =
      some (domain_responds_to_http net1 retries cache0 d).1 ∧
    (domain_responds_to_http net2 retries
        (domain_responds_to_http net1 retries cache0 d).2.1 d).2.1 =
      (domain_responds_to_http net1 retries cache0 d).2.1 := by
  have hd' : (d == "") = false := by simp [hd]
  cases hc : List.lookup ("http_check:" ++ d) cache0 with
  | some r =>
    refine ⟨?_, ?_, ?_, ?_⟩ <;> simp [domain_responds_to_http, hd', hc]
  | none =>
    cases ht : (tryUrls net1 retries ["https://" ++ d, "http://" ++ d]).1 with
    | some v =>
      obtain ⟨status, server⟩ := v
      refine ⟨?_, ?_, ?_, ?_⟩ <;>
        simp [domain_responds_to_http, hd', hc, ht, List.lookup]
    | none =>
      refine ⟨?_, ?_, ?_, ?_⟩ <;>
        simp [domain_responds_to_http, hd', hc, ht, List.lookup]

/-- Witness for C7: a first call against an all-connection-error network
populates the cache, and a second call against a DIFFERENT network
(all-timeout) still returns the identical tuple with an empty request
trace. -/
theorem http_cache_hit_witness :
    (domain_responds_to_http netTimeoutAll 2
        (domain_responds_to_http netConnErr 2 [] "w.com").2.1 "w.com").1 =
      (domain_responds_to_http netConnErr 2 [] "w.com").1 ∧
    (domain_responds_to_http netTimeoutAll 2
        (domain_responds_to_http netConnErr 2 [] "w.com").2.1 "w.com").2.2 = [] ∧
    (domain_responds_to_http netConnErr 2 [] "w.com").2.1.lookup
        ("http_check:" ++ "w.com") =
      some (domain_responds_to_http netConnErr 2 [] "w.com").1 ∧
    (domain_responds_to_http netTimeoutAll 2
        (domain_responds_to_http netConnErr 2 [] "w.com").2.1 "w.com").2.1 =
      (domain_responds_to_http netConnErr 2 [] "w.com").2.1 :=
  http_cache_hit netConnErr netTimeoutAll 2 [] "w.com" (by decide)

/-! ### Domain-guessing fallback (`verify_website_from_company`,
lines 202-214, and the identical pattern loop of `crawl_verified.run_crawl`
lines 101-122). -/

/-- The TLD list tried for each pattern, in source order. -/
def guessTlds : List String := ["com", "net", "org", "biz"]

/-- The three name patterns of the fallback, in source order:
`name.lower().replace(" ", "")`, `name.lower().replace(" ", "-")`,
`name.lower().split()[0]`.  Only spaces are transformed — every other
character of the name (apostrophes included) is kept.  (For a name
without any word, Python `split()[0]` would raise IndexError; the
theorems below only concern names with at least one word, where the
`headD` default is never consulted.) -/
def guessPatterns (companyName : String) : List String :=
  [removeSpaces (strLower companyName),
   replaceChar ' ' '-' (strLower companyName),
   (splitWs (strLower companyName)).headD ""]

/-- The full candidate sequence in pattern-major, TLD-minor order
(the nested `for pattern: for tld:` loops). -/
def guessCandidates (companyName : String) : List String :=
  ((guessPatterns companyName).map
    (fun p => guessTlds.map (fun tld => p ++ "." ++ tld))).flatten

/-- The nested loop with its double `break`: returns the first candidate
accepted by the verification oracle, together with the list of
candidates actually tried (verification stops at the first success). -/
def searchCandidates (verifies : String → Bool) :
    List String → Option String × List String
  | [] => (none, [])
  | c :: cs =>
    if verifies c then (some c, [c])
    else
      let r := searchCandidates verifies cs
      (r.1, c :: r.2)

/-- Concatenation of strings is associative (used to normalise
pattern ++ "." ++ tld). -/
theorem strAppend_assoc (a b c : String) : a ++ b ++ c = a ++ (b ++ c) := by
  apply String.ext
  simp [String.data_append, List.append_assoc]

/-- The first component of the candidate search is the first verifying
candidate. -/
theorem searchCandidates_fst (v : String → Bool) (l : List String) :
    (searchCandidates v l).1 = l.find? v := by
  induction l with
  | nil => rfl
  | cons c cs ih =>
    by_cases h : v c = true
    · simp [searchCandidates, h, List.find?_cons_of_pos]
    · have h' : v c = false := by simpa using h
      simp [searchCandidates, h', List.find?_cons_of_neg, ih]

/-- When no candidate verifies, every candidate is tried. -/
theorem searchCandidates_snd_none (v : String → Bool) (l : List String)
    (h : l.find? v = none) : (searchCandidates v l).2 = l := by
  induction l with
  | nil => rfl
  | cons c cs ih =>
    rw [List.find?_cons] at h
    cases hvc : v c with
    | true => simp [hvc] at h
    | false =>
      rw [hvc] at h
      simp [searchCandidates, hvc, ih h]

/-- When some candidate verifies, the tried list is the failing run
followed by the winner. -/
theorem searchCandidates_snd_some (v : String → Bool) (l : List String)
    (c : String) (h : l.find? v = some c) :
    (searchCandidates v l).2 = l.takeWhile (fun x => !v x) ++ [c] := by
  induction l with
  | nil => simp at h
  | cons a rest ih =>
    rw [List.find?_cons] at h
    cases hva : v a with
    | true =>
      rw [hva] at h
      simp only [Option.some.injEq] at h
      subst h
      simp [searchCandidates, hva, List.takeWhile]
    | false =>
      rw [hva] at h
      simp [searchCandidates, hva, List.takeWhile, ih h]

/-- Counterexample for C8: the apostrophe of a name like Joe s Cafe
(with an apostrophe after Joe) is NOT removed — only spaces are — so the
first candidate is joe\x27scafe.com, not the joescafe.com stated by the
claim. -/
theorem guess_candidates_cex :
    (guessCandidates "Joe\x27s Cafe").head? = some "joe\x27scafe.com" ∧
    (guessCandidates "Joe\x27s Cafe").head? ≠ some "joescafe.com" := by
  decide

/-- Claim C8 (amended): candidates are generated pattern-major,
TLD-minor — spaces-removed, then spaces-hyphenated, then first word,
each across com, net, org, biz in that order — keeping every non-space
character (apostrophes included), so the sequence for the name
Joe\x27s Cafe starts joe\x27scafe.com, joe\x27scafe.net,
joe\x27scafe.org, joe\x27scafe.biz, joe\x27s-cafe.com, ...; the search
stops at the first candidate that verifies: every candidate before the
winner was tried and failed, and nothing after the winner is tried. -/
theorem guess_candidates_order (name : String)
    (verifies : String → Bool) (w : Option String) (tried : List String)
    (hsearch : searchCandidates verifies (guessCandidates name) = (w, tried)) :
    guessCandidates name =
      [removeSpaces (strLower name) ++ ".com",
       removeSpaces (strLower name) ++ ".net",
       removeSpaces (strLower name) ++ ".org",
       removeSpaces (strLower name) ++ ".biz",
       replaceChar ' ' '-' (strLower name) ++ ".com",
       replaceChar ' ' '-' (strLower name) ++ ".net",
       replaceChar ' ' '-' (strLower name) ++ ".org",
       replaceChar ' ' '-' (strLower name) ++ ".biz",
       (splitWs (strLower name)).headD "" ++ ".com",
       (splitWs (strLower name)).headD "" ++ ".net",
       (splitWs (strLower name)).headD "" ++ ".org",
       (splitWs (strLower name)).headD "" ++ ".biz"] ∧
    guessCandidates "Joe\x27s Cafe" =
      ["joe\x27scafe.com", "joe\x27scafe.net", "joe\x27scafe.org",
       "joe\x27scafe.biz", "joe\x27s-cafe.com", "joe\x27s-cafe.net",
       "joe\x27s-cafe.org", "joe\x27s-cafe.biz", "joe\x27s.com",
       "joe\x27s.net", "joe\x27s.org", "joe\x27s.biz"] ∧
    (∀ c, w = some c →
      verifies c = true ∧ tried.getLast? = some c ∧
      ∀ c2 ∈ tried.dropLast, verifies c2 = false) ∧
    (w = none → tried = guessCandidates name) := by
  have hw : (searchCandidates verifies (guessCandidates name)).1 = w :=
    congrArg Prod.fst hsearch
  have ht : (searchCandidates verifies (guessCandidates name)).2 = tried :=
    congrArg Prod.snd hsearch
  refine ⟨?_, by decide, ?_, ?_⟩
  · simp [guessCandidates, guessPatterns, guessTlds, strAppend_assoc]
  · intro c hc
    have hfind : (guessCandidates name).find? verifies = some c := by
      rw [← searchCandidates_fst, hw, hc]
    refine ⟨List.find?_some hfind, ?_, ?_⟩
    · rw [← ht, searchCandidates_snd_some verifies _ c hfind]
      exact List.getLast?_concat _
    · intro c2 hc2
      rw [← ht, searchCandidates_snd_some verifies _ c hfind,
        List.dropLast_concat] at hc2
      have hmem := List.mem_takeWhile_imp hc2
      simpa using hmem
  · intro hnone
    have hfind : (guessCandidates name).find? verifies = none := by
      rw [← searchCandidates_fst, hw, hnone]
    rw [← ht, searchCandidates_snd_none verifies _ hfind]

/-- A verification oracle accepting only the fifth candidate of the
Joe\x27s-Cafe sequence. -/
def verifiesFifth : String → Bool := fun s => s == "joe\x27s-cafe.com"

/-- Witness for C8 (amended): the concrete candidate sequence for the
name Joe\x27s Cafe, extracted by applying the order theorem at a
concrete search. -/
theorem guess_candidates_order_witness :
    guessCandidates "Joe\x27s Cafe" =
      ["joe\x27scafe.com", "joe\x27scafe.net", "joe\x27scafe.org",
       "joe\x27scafe.biz", "joe\x27s-cafe.com", "joe\x27s-cafe.net",
       "joe\x27s-cafe.org", "joe\x27s-cafe.biz", "joe\x27s.com",
       "joe\x27s.net", "joe\x27s.org", "joe\x27s.biz"] :=
  (guess_candidates_order "Joe\x27s Cafe" verifiesFifth
    (searchCandidates verifiesFifth (guessCandidates "Joe\x27s Cafe")).1
    (searchCandidates verifiesFifth (guessCandidates "Joe\x27s Cafe")).2
    rfl).2.1

/-! ### Tech fingerprinting (`enhanced_tech_detection.py`). -/

/-- An HTTP response as seen by the detectors: status, header pairs and
body text. -/
structure Response where
  status : Nat
  headers : List (String × String)
  body : String
deriving Repr, DecidableEq

/-- Outcome of a `requests.head` / `requests.get` call: a response, or
`err` standing for any raised exception. -/
inductive Fetch where
  | ok : Response → Fetch
  | err : Fetch
deriving Repr, DecidableEq

/-- One plugin entry of a parsed WPScan JSON report. -/
structure WpscanPluginEntry where
  name : String
  version : Option String
  vulnCount : Nat
deriving Repr, DecidableEq

/-- A parsed WPScan JSON report (the external collaborator): the plugin
map and the detected core version number. -/
structure WpscanReport where
  plugins : List WpscanPluginEntry
  version : Option String
deriving Repr, DecidableEq

/-- Oracle bundling the I/O the detectors perform: HEAD requests, GET
requests, and the WPScan subprocess (`none` models every failure of that
external collaborator: binary missing, timeout, non-zero exit, or
non-JSON output). -/
structure NetOracle where
  head : String → Fetch
  get : String → Fetch
  wpscan : String → Option WpscanReport

/-- Single-quote character (written by code point to keep sources plain). -/
def squote : Char := Char.ofNat 39

/-- Double-quote character. -/
def dquote : Char := Char.ofNat 34

/-- Parse a `\d+\.\d+` version number at the head of the list, returning
the matched text. -/
def parseVersionNum (cs : List Char) : Option String :=
  let d1 := cs.takeWhile Char.isDigit
  let rest1 := cs.dropWhile Char.isDigit
  if d1.isEmpty then none
  else
    match rest1 with
    | '.' :: rest2 =>
      let d2 := rest2.takeWhile Char.isDigit
      if d2.isEmpty then none else some (String.mk (d1 ++ '.' :: d2))
    | _ => none

/-- The regex search `Apache/(\d+\.\d+)` of `detect_server_info`
(line 39): first position where `Apache/` is followed by a
major.minor number. -/
def apacheVersionSearch : List Char → Option String
  | [] => none
  | c :: cs =>
    match
      (if startsWithChars ("Apache/".toList) (c :: cs) then
        parseVersionNum ((c :: cs).drop 7)
       else none) with
    | some v => some v
    | none => apacheVersionSearch cs

/-- The regex search `drupal\s+(\d+\.\d+)` of `detect_other_cms`
(line 187) over the lower-cased body. -/
def drupalVersionSearch : List Char → Option String
  | [] => none
  | c :: cs =>
    match
      (if startsWithChars ("drupal".toList) (c :: cs) then
        let after := (c :: cs).drop 6
        let ws := after.takeWhile Char.isWhitespace
        if ws.isEmpty then none
        else parseVersionNum (after.dropWhile Char.isWhitespace)
       else none) with
    | some v => some v
    | none => drupalVersionSearch cs

/-- The regex search for a quoted wp version assignment — pattern
dollar wp_version, optional whitespace, equals, optional whitespace, a
single or double quote, one or more non-quote chars (captured), then a
closing quote — of `detect_wordpress` (line 105). -/
def wpVersionAt (cs : List Char) : Option String :=
  if startsWithChars ("$wp_version".toList) cs then
    let r1 := (cs.drop 11).dropWhile Char.isWhitespace
    match r1 with
    | '=' :: r2 =>
      let r3 := r2.dropWhile Char.isWhitespace
      match r3 with
      | q :: r4 =>
        if q == squote || q == dquote then
          let body := r4.takeWhile (fun ch => !(ch == squote || ch == dquote))
          let rest := r4.dropWhile (fun ch => !(ch == squote || ch == dquote))
          if body.isEmpty then none
          else
            match rest with
            | _ :: _ => some (String.mk body)
            | [] => none
        else none
      | [] => none
    | _ => none
  else none

/-- Scan for the first quoted wp_version assignment in a body. -/
def wpVersionSearch : List Char → Option String
  | [] => none
  | c :: cs =>
    match wpVersionAt (c :: cs) with
    | some v => some v
    | none => wpVersionSearch cs

/-- The five security header names checked by `detect_server_info`
(lines 54-60). -/
def securityHeaderNames : List String :=
  ["Strict-Transport-Security", "Content-Security-Policy",
   "X-Content-Type-Options", "X-Frame-Options", "X-XSS-Protection"]

/-- `TechStackDetector.detect_server_info` (lines 18-69): HEAD request,
Server header with the Apache 2.2 outdatedness check, X-Powered-By with
the PHP framework flag, and the security-header map; any exception from
the request yields the all-default struct. -/
def detect_server_info (net : NetOracle) (url : String) : ServerInfo :=
  match net.head url with
  | .err => serverDefault
  | .ok resp =>
    let headers := resp.headers
    let r1 :=
      match headers.lookup "Server" with
      | none => serverDefault
      | some sv =>
        let withServer := { serverDefault with server := some sv }
        if strContains sv "Apache" then
          match apacheVersionSearch sv.toList with
          | none => withServer
          | some ver =>
            let r := { withServer with version := some ver }
            if startsWithChars ("2.2".toList) ver.toList then
              { r with outdated := true }
            else r
        else withServer
    let r2 :=
      match headers.lookup "X-Powered-By" with
      | none => r1
      | some pb =>
        let r := { r1 with powered_by := some pb }
        if strContains pb "PHP" then { r with framework := some "PHP" } else r
    { r2 with security_headers :=
        (securityHeaderNames.filterMap
          (fun nm => (headers.lookup nm).map (fun v => (nm, v)))) }

/-- The WordPress body indicators of `detect_wordpress` (lines 89-95);
the body is lower-cased first, so the lower-cased generator meta tag is
matched. -/
def wpIndicators : List String :=
  ["wp-content", "wp-includes", "/wp-json/", "wordpress",
   "<meta name=\x22generator\x22 content=\x22wordpress"]

/-- The version-disclosure probe of `detect_wordpress` (lines 103-109):
GET `url + "/wp-includes/version.php"` and regex-match; the inner
try/except swallows its own failures. -/
def wpVersionProbe (net : NetOracle) (url : String) : Option String :=
  match net.get (url ++ "/wp-includes/version.php") with
  | .err => none
  | .ok resp => wpVersionSearch resp.body.toList

/-- `TechStackDetector.detect_wordpress` (lines 71-168): GET the page;
on exception return the defaults; otherwise require a body indicator,
probe the version file, then fold in the WPScan report if the external
tool succeeded (vulnerable plugins, plugin names, core version with the
major<5 outdatedness rule, vulnerability count).  A core version whose
major component is not a plain integer makes the Python `int()` raise;
the outer handler swallows it, leaving the fields assigned so far. -/
def detect_wordpress (net : NetOracle) (url : String) : WordPressInfo :=
  match net.get url with
  | .err => wpDefault
  | .ok resp =>
    let content := strLower resp.body
    if !(wpIndicators.any (fun ind => strContains content ind)) then wpDefault
    else
      let afterProbe : WordPressInfo :=
        { wpDefault with is_wordpress := true,
                         version := wpVersionProbe net url }
      match net.wpscan url with
      | none => afterProbe
      | some report =>
        let vulnList : List VulnPlugin :=
          (report.plugins.filter (fun (p : WpscanPluginEntry) => 0 < p.vulnCount)).map
            (fun (p : WpscanPluginEntry) =>
              { name := p.name, version := p.version.getD "Unknown",
                vulnerabilities := p.vulnCount })
        let withPlugins :=
          { afterProbe with
            vulnerable_plugins := vulnList,
            plugins := (report.plugins.map (fun (p : WpscanPluginEntry) => p.name)) }
        match report.version with
        | none =>
          { withPlugins with
            vulnerabilities := withPlugins.vulnerable_plugins.length }
        | some v =>
          if v == "" then
            { withPlugins with
              vulnerabilities := withPlugins.vulnerable_plugins.length }
          else
            let withVersion := { withPlugins with version := some v }
            match charsToNat? ((splitOnChar '.' v.toList).headD []) with
            | none => withVersion
            | some major =>
              let withCore :=
                if major < 5 then { withVersion with outdated_core := true }
                else withVersion
              { withCore with
                vulnerabilities := withCore.vulnerable_plugins.length }

/-- `TechStackDetector.detect_other_cms` (lines 170-202): GET the page;
on exception return the defaults; otherwise match Drupal (with its
version regex), then Joomla, then Magento, first match winning. -/
def detect_other_cms (net : NetOracle) (url : String) : OtherCms :=
  match net.get url with
  | .err => cmsDefault
  | .ok resp =>
    let content := strLower resp.body
    if strContains content "drupal" || strContains content "sites/all/modules" then
      { cms_type := some "Drupal",
        version := drupalVersionSearch content.toList, outdated := false }
    else if strContains content "joomla" ||
        strContains content "administrator/index.php" then
      { cmsDefault with cms_type := some "Joomla" }
    else if strContains content "magento" ||
        strContains content "var/log/system.log" then
      { cmsDefault with cms_type := some "Magento" }
    else cmsDefault

/-- `TechStackDetector.analyze_tech_stack` (lines 204-212): the pure
composition of the three detectors plus a timestamp. -/
def analyze_tech_stack (net : NetOracle) (url ts : String) : TechStack :=
  { server := detect_server_info net url,
    wordpress := detect_wordpress net url,
    other_cms := detect_other_cms net url,
    scan_timestamp := ts }

/-- A network oracle on which every request raises. -/
def netAllErr : NetOracle :=
  { head := fun _ => .err, get := fun _ => .err, wpscan := fun _ => none }

example : apacheVersionSearch ("Apache/2.2.3".toList) = some "2.2" := by decide

example : wpVersionSearch ("x $wp_version = \x225.1\x22;".toList) = some "5.1" := by
  decide

/-- Claim C9: no detector raises past its boundary — whenever the
underlying request raises (the `.err` outcome), `detect_server_info`,
`detect_wordpress` and `detect_other_cms` each return their
all-None/empty default struct, and `analyze_tech_stack` is their total
composition (being a total Lean function, it is defined — hence
non-throwing — for every oracle and input). -/
theorem detectors_silent_on_error (net : NetOracle) (url ts : String) :
    (net.head url = Fetch.err → detect_server_info net url = serverDefault) ∧
    (net.get url = Fetch.err → detect_wordpress net url = wpDefault) ∧
    (net.get url = Fetch.err → detect_other_cms net url = cmsDefault) ∧
    analyze_tech_stack net url ts =
      { server := detect_server_info net url,
        wordpress := detect_wordpress net url,
        other_cms := detect_other_cms net url,
        scan_timestamp := ts } := by
  refine ⟨fun h => ?_, fun h => ?_, fun h => ?_, rfl⟩ <;>
    simp [detect_server_info, detect_wordpress, detect_other_cms, h]

/-- Witness for C9: the all-raising oracle yields the three default
structs. -/
theorem detectors_silent_on_error_witness :
    detect_server_info netAllErr "http://x.com" = serverDefault ∧
    detect_wordpress netAllErr "http://x.com" = wpDefault ∧
    detect_other_cms netAllErr "http://x.com" = cmsDefault :=
  ⟨(detectors_silent_on_error netAllErr "http://x.com" "t").1 rfl,
   (detectors_silent_on_error netAllErr "http://x.com" "t").2.1 rfl,
   (detectors_silent_on_error netAllErr "http://x.com" "t").2.2.1 rfl⟩
